/-
Verification of the splat_viewer PLY loader, application state transitions and
GLSL splat shaders, against their natural-language specification.

The embedding mirrors the TypeScript/GLSL source:
  * `loadPly` (services/plyLoader.ts): header scan, line parsing, property
    scheme validation and the binary decode loop.
  * `handleLoad` (App.tsx): the application state transition performed for a
    finished load attempt.
  * `vertexMain` / `fragmentMain` (components/Viewer.tsx): the GLSL shader
    pair used for point and splat rendering.

Numeric conventions: JavaScript / GLSL floating point arithmetic is modelled
over an arbitrary linear ordered field `K` (rationals in concrete instances).
The transcendental operations `Math.exp` / `Math.sqrt` (and GLSL `exp`,
`sqrt`, `inversesqrt`) are abstracted as a `FloatOps` parameter, so that every
definition stays executable and theorems quantify over the operations.
Division by zero is total (junk value 0) as usual in Lean; theorems about the
code only rely on it where the source is well defined.

Byte-level access: the source reads the payload through a `DataView` created
over the file buffer at offset `headerEnd`.  The reads
`dataView.getFloat32(a, true)` and `dataView.getUint8 a` are abstracted as
functions `getF32 getU8 : Nat → _` indexed by the absolute byte address in the
buffer, i.e. the model reads at address `headerEnd + byteOffset + propOffset`
exactly as the source does through the view.  The ASCII header is modelled as
the decoded text (`List Char`) of the first 10 KiB of the buffer.
-/
import Mathlib

namespace SplatViewer

/-! ### JavaScript string primitives

`String.prototype.startsWith`, `indexOf`, `split`, `trim` and `parseInt`
restricted to what the loader uses, over `List Char`. -/

/-- JS `s.startsWith(pat)`. -/
def jsStartsWith : List Char → List Char → Bool
  | [], _ => true
  | _ :: _, [] => false
  | p :: ps, c :: cs => p = c && jsStartsWith ps cs

/-- First index at which `pat` occurs in `s`, if any. -/
def indexOfSub (pat : List Char) : List Char → Option Nat
  | [] => if jsStartsWith pat [] then some 0 else none
  | c :: cs =>
    if jsStartsWith pat (c :: cs) then some 0
    else (indexOfSub pat cs).map (· + 1)

/-- JS `s.indexOf(pat)`: the occurrence index, or `-1` when absent. -/
def jsIndexOf (pat s : List Char) : Int :=
  match indexOfSub pat s with
  | some i => (i : Int)
  | none => -1

/-- JS `s.split(sep)` for a one-character separator. -/
def jsSplit (sep : Char) : List Char → List (List Char)
  | [] => [[]]
  | c :: rest =>
    if c = sep then [] :: jsSplit sep rest
    else
      match jsSplit sep rest with
      | [] => [[c]]
      | p :: ps => (c :: p) :: ps

/-- Whitespace characters recognised by JS `trim` (the ones that occur in PLY
headers). -/
def jsIsWS (c : Char) : Bool :=
  c = ' ' || c = '\t' || c = '\n' || c = '\r'

/-- JS `s.trim()`. -/
def jsTrim (s : List Char) : List Char :=
  ((s.dropWhile jsIsWS).reverse.dropWhile jsIsWS).reverse

/-- Decimal digits at the front of `s`, if there is at least one. -/
def leadingDigits (s : List Char) : Option Nat :=
  let ds := s.takeWhile Char.isDigit
  if ds = [] then none
  else some (ds.foldl (fun a c => a * 10 + (c.toNat - 48)) 0)

/-- JS `parseInt(s)` (base 10): skips leading whitespace, optional sign, then
takes the leading digit run; `none` models `NaN`. -/
def jsParseInt (s : List Char) : Option Int :=
  let t := s.dropWhile jsIsWS
  match t with
  | '-' :: rest => (leadingDigits rest).map (fun n => -(n : Int))
  | '+' :: rest => (leadingDigits rest).map (fun n => (n : Int))
  | _ => (leadingDigits t).map (fun n => (n : Int))

/-! ### PLY header model (loadPly lines 26-67) -/

/-- One parsed `property <type> <name>` declaration with its accumulated byte
offset within a record. -/
structure PropDesc where
  name : String
  type : String
  offset : Nat
deriving DecidableEq, Repr

/-- Byte width assigned to a property type (loadPly lines 43-49): `float` and
`int32` are 4 bytes, `uchar` 1, `double` 8, anything else falls back to 4. -/
def typeSize (t : String) : Nat :=
  if t = "float" ∨ t = "int32" then 4
  else if t = "uchar" then 1
  else if t = "double" then 8
  else 4

/-- Accumulator of the header line loop (loadPly lines 31-54).  `pointCount`
is `none` when the source variable holds `NaN` (a failed `parseInt`). -/
structure HeaderAcc where
  pointCount : Option Int := some 0
  isBinary : Bool := false
  properties : List PropDesc := []
  currentOffset : Nat := 0
deriving Repr

/-- Error kinds of a load attempt.  The constructors mirror the `throw new
Error(...)` sites of `loadPly` (the spec names them `UnsupportedEncoding`,
`NoVertices`, `MissingPosition`, `MissingColor`).  `headerTooLargeOrMissing`
is the extra kind named by the spec error catalog; no statement in `loadPly`
raises it.  `jsTypeError` models the runtime `TypeError` raised by
`name.trim()` when a truncated `property` line destructures to `undefined`;
`rangeError` models the runtime `RangeError` raised by
`new Uint8Array(buffer, 0, 1024 * 10)` when the buffer holds fewer than
10 KiB. -/
inductive PlyError where
  | headerTooLargeOrMissing : PlyError
  | unsupportedEncoding : PlyError
  | noVertices : PlyError
  | missingPosition : PlyError
  | missingColor (found : List String) : PlyError
  | jsTypeError : PlyError
  | rangeError : PlyError
deriving DecidableEq, Repr

/-- The `e.message` string displayed by the app for each error kind, from the
`throw new Error(...)` sites of `loadPly`. -/
def PlyError.message : PlyError → String
  | .headerTooLargeOrMissing => "Header too large or missing."
  | .unsupportedEncoding => "Only binary_little_endian PLY format is supported."
  | .noVertices => "No vertices found in PLY file."
  | .missingPosition => "PLY file must contain x, y, z properties."
  | .missingColor found =>
      "PLY file must contain color properties. Found: " ++ String.intercalate ", " found
  | .jsTypeError => "Cannot read properties of undefined"
  | .rangeError => "Invalid typed array length"

/-- One iteration of the header line loop (loadPly lines 36-54). -/
def processLine (acc : HeaderAcc) (line : List Char) : Except PlyError HeaderAcc :=
  if jsStartsWith "element vertex".toList line then
    .ok { acc with pointCount := ((jsSplit ' ' line).get? 2).bind jsParseInt }
  else if jsStartsWith "property".toList line then
    let parts := jsSplit ' ' line
    match parts.get? 2 with
    | none => .error .jsTypeError
    | some nm =>
      let ty : String := ⟨(parts.get? 1).getD []⟩
      .ok { acc with
              properties := acc.properties ++ [⟨⟨jsTrim nm⟩, ty, acc.currentOffset⟩],
              currentOffset := acc.currentOffset + typeSize ty }
  else if jsStartsWith "format binary_little_endian".toList line then
    .ok { acc with isBinary := true }
  else
    .ok acc

/-- The whole header line loop. -/
def parseHeaderLines (lines : List (List Char)) : Except PlyError HeaderAcc :=
  lines.foldlM processLine {}

/-- `propMap.has name` (loadPly line 60): the property list contains the
name.  Duplicates in a JS `Map` keep the last entry, hence `offsetOf` below
searches the reversed list. -/
def hasProp (props : List PropDesc) (nm : String) : Bool :=
  props.any (fun p => p.name = nm)

/-- `propMap.get name |>.offset`, with last-entry-wins `Map` semantics; the
default branch is unreachable on the names the decoder reads, since
`validateScheme` checked their presence (the source uses a `!` assertion). -/
def offsetOf (props : List PropDesc) (nm : String) : Nat :=
  ((props.reverse.find? (fun p => p.name = nm)).map (fun p => p.offset)).getD 0

/-- `hasPosition` (loadPly line 61). -/
def hasPositionFlag (props : List PropDesc) : Bool :=
  hasProp props "x" && hasProp props "y" && hasProp props "z"

/-- `hasClassicColor` (loadPly line 62). -/
def hasClassicColorFlag (props : List PropDesc) : Bool :=
  hasProp props "red" && hasProp props "green" && hasProp props "blue"

/-- `hasSHColor` (loadPly line 63). -/
def hasSHColorFlag (props : List PropDesc) : Bool :=
  hasProp props "f_dc_0" && hasProp props "f_dc_1" && hasProp props "f_dc_2"

/-- `hasSplat` (loadPly line 64). -/
def hasSplatFlag (props : List PropDesc) : Bool :=
  (hasProp props "scale_0" && hasProp props "scale_1" && hasProp props "scale_2") &&
  (hasProp props "rot_0" && hasProp props "rot_1" && hasProp props "rot_2" &&
   hasProp props "rot_3")

/-- The scheme validation of loadPly lines 66-69: position is required, then
at least one color scheme; on success returns `useSHColor = hasSHColor`. -/
def validateScheme (props : List PropDesc) : Except PlyError Bool :=
  if hasPositionFlag props = false then .error .missingPosition
  else if hasClassicColorFlag props = false ∧ hasSHColorFlag props = false then
    .error (.missingColor (props.map (fun p => p.name)))
  else .ok (hasSHColorFlag props)

/-! ### Numeric abstraction and small vector algebra -/

/-- The transcendental operations the source takes from `Math` / GLSL,
abstracted so the embedding stays executable over any ordered field. -/
structure FloatOps (K : Type) where
  exp : K → K
  sqrt : K → K

variable {K : Type} [LinearOrderedField K]

/-- 3-component vector (GLSL `vec3`, THREE `Vector3`). -/
abbrev V3 (K : Type) := K × K × K

/-- 4-component vector (GLSL `vec4`). -/
abbrev V4 (K : Type) := K × K × K × K

/-- `const sigmoid = (x) => 1 / (1 + Math.exp(-x))` (loadPly line 80). -/
def sigmoid (ops : FloatOps K) (x : K) : K := 1 / (1 + ops.exp (-x))

/-! ### The decode loop (loadPly lines 71-141) -/

/-- One update of the running `(minY, maxY)` pair (loadPly lines 126-127):
`if (y < minY) minY = y; if (y > maxY) maxY = y`; `none` models the initial
`(Infinity, -Infinity)` state before any point was seen. -/
def yStep (acc : Option (K × K)) (y : K) : Option (K × K) :=
  match acc with
  | none => some (y, y)
  | some (mn, mx) => some (if y < mn then y else mn, if y > mx then y else mx)

/-- The `(minY, maxY)` pair collected over the decoded y coordinates. -/
def yStats (ys : List K) : Option (K × K) :=
  ys.foldl yStep none

/-- `THREE.Box3.expandByPoint`: componentwise min/max; `none` is the empty
box (`min = +Infinity`, `max = -Infinity`). -/
def expandBox (b : Option (V3 K × V3 K)) (p : V3 K) : Option (V3 K × V3 K) :=
  match b with
  | none => some (p, p)
  | some (mn, mx) =>
    some ((min mn.1 p.1, min mn.2.1 p.2.1, min mn.2.2 p.2.2),
          (max mx.1 p.1, max mx.2.1 p.2.1, max mx.2.2 p.2.2))

/-- The bounding box accumulated over the decoded positions
(loadPly lines 76, 128). -/
def boxOf (ps : List (V3 K)) : Option (V3 K × V3 K) :=
  ps.foldl expandBox none

/-- A float32 read of property `nm` of record `i`:
`dataView.getFloat32(i * stride + propMap.get(nm).offset, true)` on the view
based at buffer offset `base = headerEnd`. -/
def f32Read (getF32 : Nat → K) (base stride : Nat) (props : List PropDesc)
    (i : Nat) (nm : String) : K :=
  getF32 (base + i * stride + offsetOf props nm)

/-- A uint8 read of property `nm` of record `i` (the classic color path). -/
def u8Read (getU8 : Nat → Nat) (base stride : Nat) (props : List PropDesc)
    (i : Nat) (nm : String) : Nat :=
  getU8 (base + i * stride + offsetOf props nm)

/-- Coordinate names in write order `positions[3i] = x` etc. -/
def xyzName (c : Nat) : String := if c = 0 then "x" else if c = 1 then "y" else "z"

/-- SH color property names in write order. -/
def fdcName (c : Nat) : String :=
  if c = 0 then "f_dc_0" else if c = 1 then "f_dc_1" else "f_dc_2"

/-- Classic color property names in write order. -/
def rgbName (c : Nat) : String := if c = 0 then "red" else if c = 1 then "green" else "blue"

/-- Scale property names in write order. -/
def scaleName (c : Nat) : String :=
  if c = 0 then "scale_0" else if c = 1 then "scale_1" else "scale_2"

/-- `L = Math.sqrt(qx*qx + qy*qy + qz*qz + qw*qw)` (loadPly line 118): the
L2 norm of the four raw quaternion components of record `i`. -/
def rotNorm (ops : FloatOps K) (getF32 : Nat → K) (base stride : Nat)
    (props : List PropDesc) (i : Nat) : K :=
  let qx := f32Read getF32 base stride props i "rot_0"
  let qy := f32Read getF32 base stride props i "rot_1"
  let qz := f32Read getF32 base stride props i "rot_2"
  let qw := f32Read getF32 base stride props i "rot_3"
  ops.sqrt (qx * qx + qy * qy + qz * qz + qw * qw)

/-- The parsed dataset (types.ts `PlyData`).  The typed arrays are modelled
as index functions (out-of-range indices give the typed array default 0);
`boundingBox` is `none` only for the empty box; `pointCount` is the raw
header value (`none` models `NaN`). -/
structure PlyData (K : Type) where
  positions : Nat → K
  colors : Nat → K
  elevations : Nat → K
  scales : Option (Nat → K)
  rotations : Option (Nat → K)
  boundingBox : Option (V3 K × V3 K)
  pointCount : Option Int

/-- Number of loop iterations `for (let i = 0; i < pointCount; i++)` runs
given the parsed `pointCount` (`NaN` and negative values run none). -/
def loopCount : Option Int → Nat
  | some n => n.toNat
  | none => 0

/-- The decode loop and elevation second pass (loadPly lines 71-141).
`base` is the `DataView` byte offset (`headerEnd`), `n` the number of
decoded records, `pc` the raw parsed point count that is returned in the
dataset. -/
def decodePoints (ops : FloatOps K) (getF32 : Nat → K) (getU8 : Nat → Nat)
    (props : List PropDesc) (stride base n : Nat) (pc : Option Int) : PlyData K :=
  let useSH := hasSHColorFlag props
  let hasSplat := hasSplatFlag props
  let f (i : Nat) (nm : String) : K := f32Read getF32 base stride props i nm
  let ys : List K := (List.range n).map (fun i => f i "y")
  let stats := yStats ys
  { positions := fun idx =>
      if idx < 3 * n then f (idx / 3) (xyzName (idx % 3)) else 0
    colors := fun idx =>
      if idx < 3 * n then
        if useSH then sigmoid ops (f (idx / 3) (fdcName (idx % 3)))
        else (u8Read getU8 base stride props (idx / 3) (rgbName (idx % 3)) : K) / 255
      else 0
    elevations := fun i =>
      if i < n then
        match stats with
        | some (mn, mx) =>
          if mx - mn > 1 / 1000000 then (f i "y" - mn) / (mx - mn) else 1 / 2
        | none => 1 / 2
      else 0
    scales :=
      if hasSplat then
        some (fun idx => if idx < 3 * n then ops.exp (f (idx / 3) (scaleName (idx % 3))) else 0)
      else none
    rotations :=
      if hasSplat then
        some (fun idx =>
          if idx < 4 * n then
            let i := idx / 4
            let L := rotNorm ops getF32 base stride props i
            -- stored order (lines 119-122): rotations[4i] = qw/L, then qx/L, qy/L, qz/L
            if idx % 4 = 0 then f i "rot_3" / L
            else if idx % 4 = 1 then f i "rot_0" / L
            else if idx % 4 = 2 then f i "rot_1" / L
            else f i "rot_2" / L
          else 0)
      else none
    boundingBox := boxOf ((List.range n).map (fun i => (f i "x", f i "y", f i "z")))
    pointCount := pc }

/-- `end_header`, the header terminator marker. -/
def endHeaderMarker : List Char := "end_header".toList

/-- `loadPly` after the file read.  `bufferLen` is `buffer.byteLength`:
`new Uint8Array(buffer, 0, 1024 * 10)` (line 27) throws a `RangeError`
before any scanning when the buffer holds fewer than 10 KiB.  Otherwise
`headerText` is the decoded text of exactly the first 10 KiB, which is
scanned for the terminator, parsed line by line, validated, and followed by
the decode loop.  `getF32` and `getU8` are the `DataView` reads by absolute
buffer address. -/
def loadPly (ops : FloatOps K) (bufferLen : Nat) (headerText : List Char) (getF32 : Nat → K)
    (getU8 : Nat → Nat) : Except PlyError (PlyData K) :=
  if bufferLen < 1024 * 10 then .error .rangeError else
  let headerEnd : Nat := (jsIndexOf endHeaderMarker headerText + 10 + 1).toNat
  let headerLines := jsSplit '\n' (headerText.take headerEnd)
  match parseHeaderLines headerLines with
  | .error e => .error e
  | .ok acc =>
    if acc.isBinary = false then .error .unsupportedEncoding
    else if acc.pointCount = some 0 then .error .noVertices
    else
      match validateScheme acc.properties with
      | .error e => .error e
      | .ok _useSH =>
        .ok (decodePoints ops getF32 getU8 acc.properties acc.currentOffset headerEnd
              (loopCount acc.pointCount) acc.pointCount)

/-! ### Application state (App.tsx) -/

/-- types.ts `RenderMode`. -/
inductive RenderMode where
  | ORIGINAL : RenderMode
  | COLORMAP : RenderMode
  | SPLAT : RenderMode
deriving DecidableEq, Repr

/-- The numeric value the enum member carries (used as the `u_render_mode`
shader uniform). -/
def RenderMode.val : RenderMode → Nat
  | .ORIGINAL => 0
  | .COLORMAP => 1
  | .SPLAT => 2

/-- types.ts `CropSettings`. -/
structure CropSettings (K : Type) where
  min : V3 K
  max : V3 K
  enabled : Bool

/-- types.ts `Transformations` (the Euler rotation as its three angles). -/
structure Transformations (K : Type) where
  position : V3 K
  rotation : V3 K
  scale : K

/-- App.tsx `defaultTransformations`. -/
def defaultTransformations : Transformations K :=
  { position := (0, 0, 0), rotation := (0, 0, 0), scale := 1 }

/-- The React state of `App` that `handleLoad` touches. -/
structure AppState (K : Type) where
  plyData : Option (PlyData K)
  isLoading : Bool
  loadingProgress : K
  error : Option String
  splatDataAvailable : Bool
  renderMode : RenderMode
  statsFps : Nat
  statsPointCount : Option Int
  crop : CropSettings K
  transformations : Transformations K

/-- `boundingBox.min` as read by `handleLoad`; a successfully decoded dataset
always has at least one point, so the empty-box default is never consulted
there. -/
def box3Min (b : Option (V3 K × V3 K)) : V3 K := (b.map Prod.fst).getD (0, 0, 0)

/-- `boundingBox.max`, as `box3Min`. -/
def box3Max (b : Option (V3 K × V3 K)) : V3 K := (b.map Prod.snd).getD (0, 0, 0)

/-- App.tsx `handleLoad` (lines 62-99) as a state transition: the prologue
`setState` calls, then the `try` branch on the settled result of `loadPly`
(every thrown error carries a non-empty message, so `e.message || ...` is the
message), then the `finally` block. -/
def handleLoad (s : AppState K) (result : Except PlyError (PlyData K)) : AppState K :=
  let s := { s with isLoading := true, error := none, loadingProgress := 0,
                    splatDataAvailable := false, renderMode := RenderMode.ORIGINAL }
  let s :=
    match result with
    | .ok data =>
      let hasSplatData := data.scales.isSome && data.rotations.isSome
      { s with plyData := some data,
               statsPointCount := data.pointCount,
               splatDataAvailable := hasSplatData,
               renderMode := if hasSplatData then RenderMode.SPLAT else RenderMode.ORIGINAL,
               crop := { min := box3Min data.boundingBox, max := box3Max data.boundingBox,
                         enabled := false },
               transformations := defaultTransformations }
    | .error e =>
      { s with error := some e.message, plyData := none, statsPointCount := some 0 }
  { s with isLoading := false, loadingProgress := 0 }

/-! ### GLSL shader model (components/Viewer.tsx)

GLSL matrices are column-major: `Mat3 K` maps column then row, so `M c r`
is GLSL `M[c][r]`; constructors take the nine scalars in GLSL (column-major)
argument order. -/

/-- GLSL `mat3` (column-major access). -/
abbrev Mat3 (K : Type) := Fin 3 → Fin 3 → K

/-- GLSL `mat4` (column-major access). -/
abbrev Mat4 (K : Type) := Fin 4 → Fin 4 → K

/-- GLSL `mat3(a,b,c, d,e,f, g,h,i)`: columns `(a,b,c)`, `(d,e,f)`,
`(g,h,i)`. -/
def glMat3 (m00 m01 m02 m10 m11 m12 m20 m21 m22 : K) : Mat3 K := fun c r =>
  if c = 0 then (if r = 0 then m00 else if r = 1 then m01 else m02)
  else if c = 1 then (if r = 0 then m10 else if r = 1 then m11 else m12)
  else (if r = 0 then m20 else if r = 1 then m21 else m22)

/-- GLSL `A * B` for `mat3`. -/
def mat3Mul (A B : Mat3 K) : Mat3 K := fun c r =>
  A 0 r * B c 0 + A 1 r * B c 1 + A 2 r * B c 2

/-- GLSL `transpose` for `mat3`. -/
def mat3T (A : Mat3 K) : Mat3 K := fun c r => A r c

/-- GLSL `M * v` for `mat4` and `vec4`. -/
def mat4MulV4 (M : Mat4 K) (v : V4 K) : V4 K :=
  (M 0 0 * v.1 + M 1 0 * v.2.1 + M 2 0 * v.2.2.1 + M 3 0 * v.2.2.2,
   M 0 1 * v.1 + M 1 1 * v.2.1 + M 2 1 * v.2.2.1 + M 3 1 * v.2.2.2,
   M 0 2 * v.1 + M 1 2 * v.2.1 + M 2 2 * v.2.2.1 + M 3 2 * v.2.2.2,
   M 0 3 * v.1 + M 1 3 * v.2.1 + M 2 3 * v.2.2.1 + M 3 3 * v.2.2.2)

/-- GLSL `mat3(M)` for a `mat4`: the upper-left 3×3 block. -/
def mat4ToMat3 (M : Mat4 K) : Mat3 K := fun c r =>
  M (c.castLE (by omega)) (r.castLE (by omega))

/-- GLSL `normalize` on `vec4` (via the abstracted square root). -/
def glNormalize4 (ops : FloatOps K) (v : V4 K) : V4 K :=
  let L := ops.sqrt (v.1 * v.1 + v.2.1 * v.2.1 + v.2.2.1 * v.2.2.1 + v.2.2.2 * v.2.2.2)
  (v.1 / L, v.2.1 / L, v.2.2.1 / L, v.2.2.2 / L)

/-- The Viridis colormap polynomial of the vertex shader (lines 49-55). -/
def viridis (t : K) : V3 K :=
  ((-3916112) / 1000000 * (t * t * t) + 5646949 / 1000000 * (t * t)
     + (-1385481) / 1000000 * t + 222733 / 1000000,
   (-2253683) / 1000000 * (t * t * t) + 3093823 / 1000000 * (t * t)
     + 117286 / 1000000 * t + 24924 / 1000000,
   2875323 / 1000000 * (t * t * t) + (-3489865) / 1000000 * (t * t)
     + 1297495 / 1000000 * t + 203291 / 1000000)

/-- The crop test of the vertex shader (lines 59-66): when enabled, a point
whose object-space `position` leaves `[u_crop_min, u_crop_max]` on any axis
gets `v_discard = 1.0`. -/
def cropDiscardFlag (enabled : Bool) (cmin cmax p : V3 K) : Bool :=
  enabled &&
    (p.1 < cmin.1 || p.1 > cmax.1 ||
     p.2.1 < cmin.2.1 || p.2.1 > cmax.2.1 ||
     p.2.2 < cmin.2.2 || p.2.2 > cmax.2.2)

/-- Per-vertex attributes of the shader. -/
structure VertexIn (K : Type) where
  position : V3 K
  color : V3 K
  elevation : K
  a_scale : V3 K
  a_rotation : V4 K

/-- The shader uniforms together with the THREE-provided matrices. -/
structure VertexUniforms (K : Type) where
  u_point_size : K
  u_splat_scale : K
  u_crop_min : V3 K
  u_crop_max : V3 K
  u_crop_enabled : Bool
  u_render_mode : Nat
  u_focal : K × K
  modelViewMatrix : Mat4 K
  projectionMatrix : Mat4 K

/-- The varyings and outputs written by `main` of the vertex shader. -/
structure VertexOut (K : Type) where
  v_color : V3 K
  v_discard : K
  v_cov_a : V3 K
  v_cov_b : V3 K
  v_radius : K
  gl_PointSize : K
  gl_Position : V4 K

/-- `cam_pos = modelViewMatrix * vec4(position, 1.0)` (line 75). -/
def camPos (u : VertexUniforms K) (vin : VertexIn K) : V4 K :=
  mat4MulV4 u.modelViewMatrix (vin.position.1, vin.position.2.1, vin.position.2.2, 1)

/-- The projected 2D covariance matrix of the splat branch (lines 80-114):
quaternion normalization, `R`, `S`, `V = R·S·Sᵗ·Rᵗ`, the Jacobian `J`, `W`,
and `cov = transpose(J * W * V * transpose(W) * transpose(J))`. -/
def projCov (ops : FloatOps K) (u : VertexUniforms K) (vin : VertexIn K) : Mat3 K :=
  let cp := camPos u vin
  let q := glNormalize4 ops (vin.a_rotation.2.1, vin.a_rotation.2.2.1,
                             vin.a_rotation.2.2.2, vin.a_rotation.1)
  let qx := q.1
  let qy := q.2.1
  let qz := q.2.2.1
  let qw := q.2.2.2
  let R := glMat3
    (1 - 2 * (qy * qy + qz * qz)) (2 * (qx * qy - qz * qw)) (2 * (qx * qz + qy * qw))
    (2 * (qx * qy + qz * qw)) (1 - 2 * (qx * qx + qz * qz)) (2 * (qy * qz - qx * qw))
    (2 * (qx * qz - qy * qw)) (2 * (qy * qz + qx * qw)) (1 - 2 * (qx * qx + qy * qy))
  let S := glMat3 vin.a_scale.1 0 0 0 vin.a_scale.2.1 0 0 0 vin.a_scale.2.2
  let V := mat3Mul (mat3Mul (mat3Mul R S) (mat3T S)) (mat3T R)
  let _T := glMat3 1 0 0 0 1 0 (-cp.1 / cp.2.2.1) (-cp.2.1 / cp.2.2.1) 0
  let J := glMat3 (u.u_focal.1 / cp.2.2.1) 0 0 0 (u.u_focal.2 / cp.2.2.1) 0 0 0 0
  let W := mat3T (mat4ToMat3 u.modelViewMatrix)
  mat3T (mat3Mul (mat3Mul (mat3Mul (mat3Mul J W) V) (mat3T W)) (mat3T J))

/-- `d = cov[0][0] * cov[1][1] - cov[0][1] * cov[0][1]` (line 117), the
determinant of the leading 2×2 block of the projected covariance. -/
def covDet (ops : FloatOps K) (u : VertexUniforms K) (vin : VertexIn K) : K :=
  projCov ops u vin 0 0 * projCov ops u vin 1 1 - projCov ops u vin 0 1 * projCov ops u vin 0 1

/-- `main` of the vertex shader (lines 57-135). -/
def vertexMain (ops : FloatOps K) (u : VertexUniforms K) (vin : VertexIn K) : VertexOut K :=
  let discard0 : K :=
    if cropDiscardFlag u.u_crop_enabled u.u_crop_min u.u_crop_max vin.position then 1 else 0
  let color := if u.u_render_mode = 0 ∨ u.u_render_mode = 2 then vin.color
               else viridis vin.elevation
  let cp := camPos u vin
  let pos_hom := mat4MulV4 u.projectionMatrix cp
  if u.u_render_mode = 2 then
    let cov := projCov ops u vin
    let d := covDet ops u vin
    let vdisc := if d ≤ 0 then 1 else discard0
    let mid := (cov 0 0 + cov 1 1) / 2
    let lambda1 := mid + ops.sqrt (max (1 / 100) (mid * mid - d))
    let lambda2 := mid - ops.sqrt (max (1 / 100) (mid * mid - d))
    let radius := 3 * ops.sqrt (max lambda1 lambda2)
    { v_color := color, v_discard := vdisc,
      v_cov_a := (cov 0 0, cov 0 1, cov 1 1),
      v_cov_b := (cp.2.2.1, d, 0),
      v_radius := radius * u.u_splat_scale,
      gl_PointSize := radius * u.u_splat_scale,
      gl_Position := pos_hom }
  else
    { v_color := color, v_discard := discard0,
      v_cov_a := (0, 0, 0), v_cov_b := (0, 0, 0), v_radius := 0,
      gl_PointSize := u.u_point_size * (200 / (-cp.2.2.1)),
      gl_Position := pos_hom }

/-- `main` of the fragment shader (lines 148-183): `none` is a discarded
fragment, `some (rgb, alpha)` the written `gl_FragColor`. -/
def fragmentMain (ops : FloatOps K) (u_opacity : K) (u_render_mode : Nat)
    (vo : VertexOut K) (glPointCoord : K × K) : Option (V3 K × K) :=
  if vo.v_discard > 1 / 2 then none
  else
    let cxy := (2 * glPointCoord.1 - 1, 2 * glPointCoord.2 - 1)
    if u_render_mode = 2 then
      let scaled := (cxy.1 * (vo.v_radius / 2), cxy.2 * (vo.v_radius / 2))
      let det := vo.v_cov_b.2.1
      if det ≤ 0 then none
      else
        -- inv_cov = mat2(v_cov_a.z, -v_cov_a.y, -v_cov_a.y, v_cov_a.x) / det
        let m00 := vo.v_cov_a.2.2 / det
        let m01 := -vo.v_cov_a.2.1 / det
        let m10 := -vo.v_cov_a.2.1 / det
        let m11 := vo.v_cov_a.1 / det
        let mv := (m00 * scaled.1 + m10 * scaled.2, m01 * scaled.1 + m11 * scaled.2)
        let D := scaled.1 * mv.1 + scaled.2 * mv.2
        if D > 4 then none
        else some (vo.v_color, u_opacity * ops.exp (-(1 / 2) * D))
    else
      let r2 := cxy.1 * cxy.1 + cxy.2 * cxy.2
      if r2 > 1 then none
      else some (vo.v_color, u_opacity * ops.exp (-4 * r2))

/-! ### Concrete instances

Inputs used by the closed witnesses and counterexamples below.  `cexOps` is a
rational stand-in for `Math.exp` / `Math.sqrt` that agrees with the real
functions at every argument the concrete evaluations consult
(`sqrt 25 = 5`, `sqrt 1 = 1`, `exp 0 = 1`). -/

/-- Rational stand-in for the float operations on the concrete inputs. -/
def cexOps : FloatOps ℚ :=
  { exp := fun x => if x = 0 then 1 else 0,
    sqrt := fun x => if x = 25 then 5 else if x = 1 then 1 else 0 }

/-- A payload reader returning 0 everywhere. -/
def cexF32 : Nat → ℚ := fun _ => 0

/-- A uint8 reader returning 0 everywhere. -/
def cexU8 : Nat → Nat := fun _ => 0

/-- An alternative uint8 reader, to exercise independence from the classic
color bytes. -/
def cexU8' : Nat → Nat := fun _ => 200

/-- The decoded first 10 KiB of a 10240-byte all-ASCII file (10240 times the
character `a`), containing no `end_header` marker. -/
def bigText : List Char := List.replicate (1024 * 10) 'a'

/-- The error kind of an `Except` result, if it is an error. -/
def errOf {α : Type} : Except PlyError α → Option PlyError
  | .error e => some e
  | .ok _ => none

/-- A header property list carrying both complete color schemes. -/
def bothSchemeProps : List PropDesc :=
  [⟨"x", "float", 0⟩, ⟨"y", "float", 4⟩, ⟨"z", "float", 8⟩,
   ⟨"red", "uchar", 12⟩, ⟨"green", "uchar", 13⟩, ⟨"blue", "uchar", 14⟩,
   ⟨"f_dc_0", "float", 15⟩, ⟨"f_dc_1", "float", 19⟩, ⟨"f_dc_2", "float", 23⟩]

/-- A header property list with positions but no color scheme. -/
def noColorProps : List PropDesc :=
  [⟨"x", "float", 0⟩, ⟨"y", "float", 4⟩, ⟨"z", "float", 8⟩]

/-- A header property list with positions, SH colors and the splat
extension (stride 52). -/
def splatProps : List PropDesc :=
  [⟨"x", "float", 0⟩, ⟨"y", "float", 4⟩, ⟨"z", "float", 8⟩,
   ⟨"f_dc_0", "float", 12⟩, ⟨"f_dc_1", "float", 16⟩, ⟨"f_dc_2", "float", 20⟩,
   ⟨"scale_0", "float", 24⟩, ⟨"scale_1", "float", 28⟩, ⟨"scale_2", "float", 32⟩,
   ⟨"rot_0", "float", 36⟩, ⟨"rot_1", "float", 40⟩, ⟨"rot_2", "float", 44⟩,
   ⟨"rot_3", "float", 48⟩]

/-- A payload whose single record has raw quaternion `(3,0,0,4)` under
`splatProps` (addresses 36 and 48), zero elsewhere. -/
def rotF32 : Nat → ℚ := fun a => if a = 36 then 3 else if a = 48 then 4 else 0

/-- A header property list with positions and classic colors (stride 15). -/
def classicProps : List PropDesc :=
  [⟨"x", "float", 0⟩, ⟨"y", "float", 4⟩, ⟨"z", "float", 8⟩,
   ⟨"red", "uchar", 12⟩, ⟨"green", "uchar", 13⟩, ⟨"blue", "uchar", 14⟩]

/-- A payload whose three records have y coordinates 2, 4, 6 under
`classicProps` (addresses 4, 19, 34). -/
def yF32 : Nat → ℚ := fun a => if a = 4 then 2 else if a = 19 then 4 else if a = 34 then 6 else 0

/-- A payload where every float read yields 7 (a flat dataset). -/
def y7F32 : Nat → ℚ := fun _ => 7

/-- A payload where the float at address `a` is `a` itself, giving distinct
coordinates under `classicProps`. -/
def c6F32 : Nat → ℚ := fun a => (a : ℚ)

/-- The identity `mat4`. -/
def idMat4 : Mat4 ℚ := fun c r => if c = r then 1 else 0

/-- Concrete shader uniforms: splat mode, crop disabled, identity camera. -/
def cexUniforms : VertexUniforms ℚ :=
  { u_point_size := 5, u_splat_scale := 1, u_crop_min := (0, 0, 0), u_crop_max := (0, 0, 0),
    u_crop_enabled := false, u_render_mode := 2, u_focal := (1, 1),
    modelViewMatrix := idMat4, projectionMatrix := idMat4 }

/-- Concrete vertex: zero scales give a zero 3D covariance, hence a projected
covariance with determinant 0. -/
def cexVertexIn : VertexIn ℚ :=
  { position := (0, 0, -5), color := (1, 1, 1), elevation := 0,
    a_scale := (0, 0, 0), a_rotation := (1, 0, 0, 0) }

/-- A previously loaded dataset held by the app before a failing load. -/
def priorData : PlyData ℚ :=
  { positions := fun _ => 0, colors := fun _ => 0, elevations := fun _ => 0,
    scales := none, rotations := none,
    boundingBox := some ((0, 0, 0), (1, 1, 1)), pointCount := some 1 }

/-- The app state displaying `priorData` before a failing load. -/
def priorState : AppState ℚ :=
  { plyData := some priorData, isLoading := false, loadingProgress := 0,
    error := none, splatDataAvailable := false, renderMode := RenderMode.ORIGINAL,
    statsFps := 60, statsPointCount := some 1,
    crop := { min := (0, 0, 0), max := (1, 1, 1), enabled := false },
    transformations := defaultTransformations }

/-! ### Helper lemmas -/

theorem jsStartsWith_length {pat s : List Char} (h : jsStartsWith pat s = true) :
    pat.length ≤ s.length := by
  induction pat generalizing s with
  | nil => simp
  | cons p ps ih =>
    cases s with
    | nil => simp [jsStartsWith] at h
    | cons c cs =>
      simp only [jsStartsWith, Bool.and_eq_true, decide_eq_true_eq] at h
      simpa using ih h.2

theorem jsSplit_ne_nil (sep : Char) (s : List Char) : jsSplit sep s ≠ [] := by
  cases s with
  | nil => simp [jsSplit]
  | cons c rest =>
    by_cases hc : c = sep
    · simp [jsSplit, hc]
    · simp only [jsSplit, if_neg hc]
      cases h : jsSplit sep rest <;> simp

theorem jsSplit_length_le (sep : Char) (s : List Char) :
    ∀ piece ∈ jsSplit sep s, piece.length ≤ s.length := by
  induction s with
  | nil =>
    intro piece hp
    simp only [jsSplit, List.mem_singleton] at hp
    simp [hp]
  | cons c rest ih =>
    intro piece hp
    by_cases hc : c = sep
    · simp only [jsSplit, if_pos hc, List.mem_cons] at hp
      rcases hp with rfl | hp
      · simp
      · exact (ih piece hp).trans (by simp)
    · simp only [jsSplit, if_neg hc] at hp
      rcases h : jsSplit sep rest with _ | ⟨p, ps⟩
      · exact absurd h (jsSplit_ne_nil sep rest)
      · rw [h] at hp
        rcases List.mem_cons.mp hp with rfl | hmem
        · have : p ∈ jsSplit sep rest := by rw [h]; exact List.mem_cons_self _ _
          have := ih p this
          simpa using this
        · have : piece ∈ jsSplit sep rest := by rw [h]; exact List.mem_cons_of_mem _ hmem
          exact (ih piece this).trans (by simp)

theorem processLine_short (acc : HeaderAcc) (line : List Char) (hl : line.length ≤ 10) :
    processLine acc line = Except.error PlyError.jsTypeError ∨
    ∃ acc2, processLine acc line = Except.ok acc2 ∧ acc2.isBinary = acc.isBinary := by
  unfold processLine
  by_cases h1 : jsStartsWith "element vertex".toList line = true
  · right
    rw [if_pos h1]
    exact ⟨_, rfl, rfl⟩
  · rw [if_neg h1]
    by_cases h2 : jsStartsWith "property".toList line = true
    · rw [if_pos h2]
      rcases hname : (jsSplit ' ' line).get? 2 with _ | nm
      · left
        dsimp only
        rw [hname]
      · right
        dsimp only
        rw [hname]
        exact ⟨_, rfl, rfl⟩
    · rw [if_neg h2]
      by_cases h3 : jsStartsWith "format binary_little_endian".toList line = true
      · exfalso
        have hle := jsStartsWith_length h3
        have : ("format binary_little_endian".toList).length = 27 := by decide
        omega
      · rw [if_neg h3]
        right; exact ⟨acc, rfl, rfl⟩

theorem parseFold_no_binary (lines : List (List Char)) (acc : HeaderAcc)
    (hacc : acc.isBinary = false) (hlen : ∀ l ∈ lines, l.length ≤ 10) :
    List.foldlM processLine acc lines = Except.error PlyError.jsTypeError ∨
    ∃ acc2, List.foldlM processLine acc lines = Except.ok acc2 ∧ acc2.isBinary = false := by
  induction lines generalizing acc with
  | nil => exact Or.inr ⟨acc, rfl, hacc⟩
  | cons l ls ih =>
    have hl := hlen l (List.mem_cons_self _ _)
    rcases processLine_short acc l hl with h | ⟨acc2, h, hbin⟩
    · left
      rw [List.foldlM_cons, h]
      rfl
    · have hbin2 : acc2.isBinary = false := by rw [hbin, hacc]
      have hrest : ∀ l2 ∈ ls, l2.length ≤ 10 := fun l2 h2 => hlen l2 (List.mem_cons_of_mem _ h2)
      rcases ih acc2 hbin2 hrest with h2 | ⟨acc3, h3, hb3⟩
      · left
        rw [List.foldlM_cons, h]
        exact h2
      · right
        exact ⟨acc3, by rw [List.foldlM_cons, h]; exact h3, hb3⟩

theorem indexOfSub_replicate_a (n : Nat) :
    indexOfSub endHeaderMarker (List.replicate n 'a') = none := by
  induction n with
  | zero => rfl
  | succ n ih =>
    rw [List.replicate_succ]
    simp only [indexOfSub,
      show jsStartsWith endHeaderMarker ('a' :: List.replicate n 'a') = false from rfl,
      Bool.false_eq_true, if_false, ih, Option.map_none']

/-- For a buffer of at least 10 KiB whose decoded header text contains no
`end_header` marker, `loadPly` fails with the unsupported-encoding error or
with the destructuring `TypeError`. -/
theorem loadPly_no_marker (ops : FloatOps K) (bufferLen : Nat) (text : List Char)
    (getF32 : Nat → K) (getU8 : Nat → Nat) (hlen : 1024 * 10 ≤ bufferLen)
    (hnone : indexOfSub endHeaderMarker text = none) :
    loadPly ops bufferLen text getF32 getU8 = Except.error PlyError.unsupportedEncoding ∨
    loadPly ops bufferLen text getF32 getU8 = Except.error PlyError.jsTypeError := by
  have hEnd : (jsIndexOf endHeaderMarker text + 10 + 1).toNat = 10 := by
    rw [jsIndexOf, hnone]
    decide
  have hlines : ∀ l ∈ jsSplit '\n' (text.take 10), l.length ≤ 10 := by
    intro l hl
    have h1 := jsSplit_length_le '\n' (text.take 10) l hl
    have h2 : (text.take 10).length ≤ 10 := by
      rw [List.length_take]
      exact Nat.min_le_left _ _
    omega
  unfold loadPly
  rw [if_neg (by omega : ¬bufferLen < 1024 * 10), hEnd]
  dsimp only
  rcases parseFold_no_binary (jsSplit '\n' (text.take 10)) {} rfl hlines
    with h | ⟨acc2, h, hbin⟩
  · right
    rw [show parseHeaderLines (jsSplit '\n' (text.take 10))
          = Except.error PlyError.jsTypeError from h]
  · left
    rw [show parseHeaderLines (jsSplit '\n' (text.take 10)) = Except.ok acc2 from h]
    dsimp only
    rw [if_pos hbin]

theorem ifLt_eq_min (m y : K) : (if y < m then y else m) = min m y := by
  by_cases h : y < m
  · rw [if_pos h, min_eq_right h.le]
  · rw [if_neg h, min_eq_left (not_lt.mp h)]

theorem ifGt_eq_max (m y : K) : (if y > m then y else m) = max m y := by
  by_cases h : y > m
  · rw [if_pos h, max_eq_right h.le]
  · rw [if_neg h, max_eq_left (not_lt.mp h)]

theorem yStats_foldPair (rest : List K) (a b : K) :
    rest.foldl yStep (some (a, b)) = some (rest.foldl min a, rest.foldl max b) := by
  induction rest generalizing a b with
  | nil => rfl
  | cons y ys ih =>
    rw [List.foldl_cons, List.foldl_cons, List.foldl_cons]
    rw [show yStep (some (a, b)) y
          = some (if y < a then y else a, if y > b then y else b) from rfl]
    rw [ifLt_eq_min, ifGt_eq_max, ih]

/-- The running `(minY, maxY)` pair of the decode loop is the genuine minimum
and maximum of the y coordinates. -/
theorem yStats_min?_max? (ys : List K) (mn mx : K) (h : yStats ys = some (mn, mx)) :
    ys.min? = some mn ∧ ys.max? = some mx := by
  cases ys with
  | nil => simp [yStats] at h
  | cons y rest =>
    rw [yStats, List.foldl_cons, show yStep (none : Option (K × K)) y = some (y, y) from rfl,
        yStats_foldPair] at h
    injection h with h
    have h1 : rest.foldl min y = mn := congrArg Prod.fst h
    have h2 : rest.foldl max y = mx := congrArg Prod.snd h
    constructor
    · rw [List.min?, h1]
    · rw [List.max?, h2]

theorem foldBox_some (ps : List (V3 K)) (mn mx : V3 K) :
    ps.foldl expandBox (some (mn, mx)) =
      some (((ps.map (fun p => p.1)).foldl min mn.1,
             (ps.map (fun p => p.2.1)).foldl min mn.2.1,
             (ps.map (fun p => p.2.2)).foldl min mn.2.2),
            ((ps.map (fun p => p.1)).foldl max mx.1,
             (ps.map (fun p => p.2.1)).foldl max mx.2.1,
             (ps.map (fun p => p.2.2)).foldl max mx.2.2)) := by
  induction ps generalizing mn mx with
  | nil => rfl
  | cons p ps ih =>
    rw [List.foldl_cons,
        show expandBox (some (mn, mx)) p
          = some ((min mn.1 p.1, min mn.2.1 p.2.1, min mn.2.2 p.2.2),
                  (max mx.1 p.1, max mx.2.1 p.2.1, max mx.2.2 p.2.2)) from rfl,
        ih]
    simp

/-- The accumulated bounding box of a non-empty point list is the exact
componentwise minimum and maximum. -/
theorem boxOf_minmax (pts : List (V3 K)) (mn mx : V3 K) (h : boxOf pts = some (mn, mx)) :
    (pts.map (fun p => p.1)).min? = some mn.1 ∧
    (pts.map (fun p => p.2.1)).min? = some mn.2.1 ∧
    (pts.map (fun p => p.2.2)).min? = some mn.2.2 ∧
    (pts.map (fun p => p.1)).max? = some mx.1 ∧
    (pts.map (fun p => p.2.1)).max? = some mx.2.1 ∧
    (pts.map (fun p => p.2.2)).max? = some mx.2.2 := by
  cases pts with
  | nil => simp [boxOf] at h
  | cons p rest =>
    rw [boxOf, List.foldl_cons,
        show expandBox (none : Option (V3 K × V3 K)) p = some (p, p) from rfl,
        foldBox_some] at h
    injection h with h
    have hmn := congrArg Prod.fst h
    have hmx := congrArg Prod.snd h
    simp only [List.map_cons, List.min?, List.max?]
    refine ⟨?_, ?_, ?_, ?_, ?_, ?_⟩
    · rw [← congrArg Prod.fst hmn]
    · rw [← congrArg Prod.fst (congrArg Prod.snd hmn)]
    · rw [← congrArg Prod.snd (congrArg Prod.snd hmn)]
    · rw [← congrArg Prod.fst hmx]
    · rw [← congrArg Prod.fst (congrArg Prod.snd hmx)]
    · rw [← congrArg Prod.snd (congrArg Prod.snd hmx)]

/-! ### Claim theorems -/

/-- C1 (counterexample): the claim "failure never replaces or clears the
previously loaded dataset" is false: from a state displaying `priorData`,
`handleLoad` on a failing load leaves `plyData = none`. -/
theorem c1_cex :
    priorState.plyData = some priorData ∧
    (handleLoad priorState (Except.error PlyError.unsupportedEncoding)).plyData = none :=
  ⟨rfl, rfl⟩

/-- C1 (amended): when a load attempt fails, `handleLoad` clears the
previously loaded dataset (`plyData` becomes `null`), resets the displayed
point count to 0, stores the error message, leaves the render mode at
Original and ends with the loading flag off — for every prior state and
every error. -/
theorem c1_failure_clears_prior_dataset (s : AppState K) (e : PlyError) :
    (handleLoad s (Except.error e)).plyData = none ∧
    (handleLoad s (Except.error e)).error = some e.message ∧
    (handleLoad s (Except.error e)).statsPointCount = some 0 ∧
    (handleLoad s (Except.error e)).renderMode = RenderMode.ORIGINAL ∧
    (handleLoad s (Except.error e)).isLoading = false :=
  ⟨rfl, rfl, rfl, rfl, rfl⟩

/-- C2 (counterexample): a 10240-byte buffer (all ASCII `a`, so its decoded
first 10 KiB is `bigText`) contains no `end_header` marker, yet `loadPly`
fails with the unsupported-encoding error, not with
`headerTooLargeOrMissing` (which no statement of `loadPly` raises). -/
theorem c2_cex :
    loadPly cexOps (1024 * 10) bigText cexF32 cexU8
      = Except.error PlyError.unsupportedEncoding ∧
    PlyError.unsupportedEncoding ≠ PlyError.headerTooLargeOrMissing := by
  refine ⟨?_, by decide⟩
  have hEnd : (jsIndexOf endHeaderMarker bigText + 10 + 1).toNat = 10 := by
    rw [jsIndexOf,
      show indexOfSub endHeaderMarker bigText = none from indexOfSub_replicate_a (1024 * 10)]
    decide
  unfold loadPly
  rw [if_neg (by decide : ¬1024 * 10 < 1024 * 10), hEnd]
  dsimp only
  rw [show bigText.take 10 = List.replicate 10 'a' from rfl]
  rw [show parseHeaderLines (jsSplit '\n' (List.replicate 10 'a'))
        = Except.ok { pointCount := some 0, isBinary := false, properties := [],
                      currentOffset := 0 } from rfl]
  rfl

/-- C2 (amended): for every input buffer holding at least 10 KiB whose
decoded header text contains no `end_header` marker, `loadPly` fails — with
the `unsupportedEncoding` error (or with a JS `TypeError` when the
10-character truncated header happens to destructure a malformed `property`
line), never with `headerTooLargeOrMissing`; a buffer under 10 KiB fails
even earlier, with a `RangeError` at the typed-array construction of the
header scan; and on every such failure the application clears (does not
keep) any prior dataset. -/
theorem c2_no_marker_fails (ops : FloatOps K) (bufferLen : Nat) (text : List Char)
    (getF32 : Nat → K) (getU8 : Nat → Nat)
    (hlen : 1024 * 10 ≤ bufferLen)
    (hnone : indexOfSub endHeaderMarker text = none) :
    (loadPly ops bufferLen text getF32 getU8 = Except.error PlyError.unsupportedEncoding ∨
     loadPly ops bufferLen text getF32 getU8 = Except.error PlyError.jsTypeError) ∧
    (∀ blen, blen < 1024 * 10 →
      loadPly ops blen text getF32 getU8 = Except.error PlyError.rangeError) ∧
    (∀ e blen2, loadPly ops blen2 text getF32 getU8 = Except.error e →
      e ≠ PlyError.headerTooLargeOrMissing ∧
      ∀ s : AppState K, (handleLoad s (Except.error e)).plyData = none) := by
  refine ⟨loadPly_no_marker ops bufferLen text getF32 getU8 hlen hnone, ?_, ?_⟩
  · intro blen hb
    unfold loadPly
    rw [if_pos hb]
  · intro e blen2 he
    refine ⟨?_, fun _ => rfl⟩
    by_cases hb : blen2 < 1024 * 10
    · unfold loadPly at he
      rw [if_pos hb] at he
      injection he with h
      rw [← h]
      decide
    · rcases loadPly_no_marker ops blen2 text getF32 getU8 (by omega) hnone with h | h <;>
        rw [he] at h <;> injection h with h <;> rw [h] <;> decide

/-- C2 (witness): the buffer-size and no-marker hypotheses and the failure
disjunction at the concrete 10240-byte all-`a` buffer. -/
theorem c2_no_marker_fails_witness :
    (1024 * 10 ≤ 1024 * 10 ∧ indexOfSub endHeaderMarker bigText = none) ∧
    (loadPly cexOps (1024 * 10) bigText cexF32 cexU8
        = Except.error PlyError.unsupportedEncoding ∨
     loadPly cexOps (1024 * 10) bigText cexF32 cexU8
        = Except.error PlyError.jsTypeError) :=
  ⟨⟨le_refl _, indexOfSub_replicate_a (1024 * 10)⟩,
   (c2_no_marker_fails cexOps (1024 * 10) bigText cexF32 cexU8
      (le_refl _) (indexOfSub_replicate_a (1024 * 10))).1⟩

/-- C3 (counterexample): a header carrying both complete color schemes does
not fail — `validateScheme` succeeds (with the SH scheme selected) — whereas
the claim requires `MissingColor` whenever it is not the case that exactly
one scheme is present. -/
theorem c3_cex : validateScheme bothSchemeProps = Except.ok true := by rfl

/-- C3 (amended): for every header property list containing the position
properties, the parser fails with `MissingColor` exactly when neither color
scheme is fully present (a header with both schemes succeeds, using SH), and
the `MissingColor` payload enumerates exactly the property names found. -/
theorem c3_missing_color_iff (props : List PropDesc) (hpos : hasPositionFlag props = true) :
    (validateScheme props
        = Except.error (PlyError.missingColor (props.map (fun p => p.name))) ↔
      (hasClassicColorFlag props = false ∧ hasSHColorFlag props = false)) ∧
    (∀ e, validateScheme props = Except.error e →
      e = PlyError.missingColor (props.map (fun p => p.name))) := by
  unfold validateScheme
  rw [hpos]
  by_cases hc : hasClassicColorFlag props = false ∧ hasSHColorFlag props = false
  · rw [if_neg (by simp), if_pos hc]
    exact ⟨⟨fun _ => hc, fun _ => rfl⟩, fun e he => by injection he with h; rw [h]⟩
  · rw [if_neg (by simp), if_neg hc]
    exact ⟨⟨fun h => by injection h, fun h => absurd h hc⟩, fun e he => by injection he⟩

/-- C3 (witness): the amended equivalence at a concrete colorless header. -/
theorem c3_missing_color_iff_witness :
    hasPositionFlag noColorProps = true ∧
    (validateScheme noColorProps
        = Except.error (PlyError.missingColor (noColorProps.map (fun p => p.name))) ↔
      (hasClassicColorFlag noColorProps = false ∧ hasSHColorFlag noColorProps = false)) :=
  ⟨by decide, (c3_missing_color_iff noColorProps (by decide)).1⟩

/-- C10: after every successful load, the render mode is reset regardless of
its previous value: Splat exactly when the dataset carries both scales and
rotations, Original otherwise. -/
theorem c10_render_mode_reset (s : AppState K) (data : PlyData K) :
    (handleLoad s (Except.ok data)).renderMode =
      (if data.scales.isSome && data.rotations.isSome then RenderMode.SPLAT
       else RenderMode.ORIGINAL) := rfl

/-- C4 (counterexample): with the splat extension present and raw quaternion
`(3,0,0,4)` (L2 norm 5, matching `Math.sqrt 25 = 5`), the decoded rotations
entry is `(0.8, 0.6, 0, 0)` — not `(0.6, 0, 0, 0.8)` as the claim's
"same component order as read" requires. -/
theorem c4_cex :
    cexOps.sqrt 25 = 5 ∧
    ((decodePoints cexOps rotF32 cexU8 splatProps 52 0 1 (some 1)).rotations.map
        (fun r => (r 0, r 1, r 2, r 3))) = some ((4 : ℚ)/5, 3/5, 0, 0) ∧
    ((4 : ℚ)/5, (3 : ℚ)/5, (0 : ℚ), (0 : ℚ)) ≠ ((3 : ℚ)/5, 0, 0, 4/5) := by
  refine ⟨by norm_num [cexOps], ?_, by norm_num⟩
  have ho0 : offsetOf splatProps "rot_0" = 36 := by decide
  have ho1 : offsetOf splatProps "rot_1" = 40 := by decide
  have ho2 : offsetOf splatProps "rot_2" = 44 := by decide
  have ho3 : offsetOf splatProps "rot_3" = 48 := by decide
  have hs : hasSplatFlag splatProps = true := by decide
  norm_num [decodePoints, rotNorm, f32Read, ho0, ho1, ho2, ho3, hs, rotF32, cexOps]

/-- C4 (amended): for every record with splat extension and raw quaternion
components of nonzero L2 norm, each decoded entry is a raw component divided
by the L2 norm of all four, but stored reordered with the fourth raw
component first: `rotations[4i..] = (rot_3, rot_0, rot_1, rot_2) / L`; in
particular raw `(3,0,0,4)` decodes to `(0.8, 0.6, 0, 0)`. -/
theorem c4_rotation_normalization (ops : FloatOps K) (getF32 : Nat → K) (getU8 : Nat → Nat)
    (props : List PropDesc) (stride base n : Nat) (pc : Option Int) (i : Nat)
    (hsplat : hasSplatFlag props = true) (hi : i < n)
    (_hL : rotNorm ops getF32 base stride props i ≠ 0) :
    ((decodePoints ops getF32 getU8 props stride base n pc).rotations.map
        (fun r => (r (4 * i), r (4 * i + 1), r (4 * i + 2), r (4 * i + 3)))) =
      some (f32Read getF32 base stride props i "rot_3" / rotNorm ops getF32 base stride props i,
            f32Read getF32 base stride props i "rot_0" / rotNorm ops getF32 base stride props i,
            f32Read getF32 base stride props i "rot_1" / rotNorm ops getF32 base stride props i,
            f32Read getF32 base stride props i "rot_2" / rotNorm ops getF32 base stride props i) := by
  have h0 : 4 * i < 4 * n := by omega
  have h1 : 4 * i + 1 < 4 * n := by omega
  have h2 : 4 * i + 2 < 4 * n := by omega
  have h3 : 4 * i + 3 < 4 * n := by omega
  have d0 : (4 * i) / 4 = i := by omega
  have d1 : (4 * i + 1) / 4 = i := by omega
  have d2 : (4 * i + 2) / 4 = i := by omega
  have d3 : (4 * i + 3) / 4 = i := by omega
  have m0 : (4 * i) % 4 = 0 := by omega
  have m1 : (4 * i + 1) % 4 = 1 := by omega
  have m2 : (4 * i + 2) % 4 = 2 := by omega
  have m3 : (4 * i + 3) % 4 = 3 := by omega
  unfold decodePoints
  dsimp only
  rw [if_pos hsplat]
  simp only [Option.map_some']
  rw [if_pos h0, if_pos h1, if_pos h2, if_pos h3]
  rw [d0, d1, d2, d3, m0, m1, m2, m3]
  norm_num

/-- C4 (witness): the amended statement at the concrete one-record splat
dataset with raw quaternion `(3,0,0,4)`. -/
theorem c4_rotation_normalization_witness :
    hasSplatFlag splatProps = true ∧ 0 < 1 ∧
    rotNorm cexOps rotF32 0 52 splatProps 0 ≠ 0 ∧
    ((decodePoints cexOps rotF32 cexU8 splatProps 52 0 1 (some 1)).rotations.map
        (fun r => (r (4 * 0), r (4 * 0 + 1), r (4 * 0 + 2), r (4 * 0 + 3)))) =
      some (f32Read rotF32 0 52 splatProps 0 "rot_3" / rotNorm cexOps rotF32 0 52 splatProps 0,
            f32Read rotF32 0 52 splatProps 0 "rot_0" / rotNorm cexOps rotF32 0 52 splatProps 0,
            f32Read rotF32 0 52 splatProps 0 "rot_1" / rotNorm cexOps rotF32 0 52 splatProps 0,
            f32Read rotF32 0 52 splatProps 0 "rot_2" / rotNorm cexOps rotF32 0 52 splatProps 0) := by
  have hnz : rotNorm cexOps rotF32 0 52 splatProps 0 ≠ 0 := by
    have ho0 : offsetOf splatProps "rot_0" = 36 := by decide
    have ho1 : offsetOf splatProps "rot_1" = 40 := by decide
    have ho2 : offsetOf splatProps "rot_2" = 44 := by decide
    have ho3 : offsetOf splatProps "rot_3" = 48 := by decide
    norm_num [rotNorm, f32Read, ho0, ho1, ho2, ho3, rotF32, cexOps]
  exact ⟨by decide, by decide, hnz,
    c4_rotation_normalization cexOps rotF32 cexU8 splatProps 52 0 1 (some 1) 0
      (by decide) (by decide) hnz⟩

/-- C5: elevation normalization — with `(minY, maxY)` the genuine minimum
and maximum of the decoded y coordinates, every in-range elevation equals
`(y - minY)/(maxY - minY)` when `maxY - minY > 1e-6` and the constant `0.5`
otherwise. -/
theorem c5_elevation_normalization (ops : FloatOps K) (getF32 : Nat → K) (getU8 : Nat → Nat)
    (props : List PropDesc) (stride base n : Nat) (pc : Option Int) (i : Nat) (mn mx : K)
    (hi : i < n)
    (hstats : yStats ((List.range n).map (fun j => f32Read getF32 base stride props j "y"))
      = some (mn, mx)) :
    ((List.range n).map (fun j => f32Read getF32 base stride props j "y")).min? = some mn ∧
    ((List.range n).map (fun j => f32Read getF32 base stride props j "y")).max? = some mx ∧
    (decodePoints ops getF32 getU8 props stride base n pc).elevations i =
      (if mx - mn > 1 / 1000000 then
        (f32Read getF32 base stride props i "y" - mn) / (mx - mn)
       else 1 / 2) := by
  refine ⟨(yStats_min?_max? _ _ _ hstats).1, (yStats_min?_max? _ _ _ hstats).2, ?_⟩
  unfold decodePoints
  dsimp only
  rw [hstats, if_pos hi]

/-- C5 (witness): the statement at the concrete three-record dataset with
y values `{2,4,6}` — elevation of the middle record is `(4-2)/(6-2) = 0.5` —
plus the degenerate flat dataset (all y equal to 7) normalizing to `0.5`. -/
theorem c5_elevation_normalization_witness :
    (1 < 3 ∧ yStats ((List.range 3).map (fun j => f32Read yF32 0 15 classicProps j "y"))
        = some ((2 : ℚ), 6)) ∧
    (decodePoints cexOps yF32 cexU8 classicProps 15 0 3 (some 3)).elevations 1 =
      (if (6 : ℚ) - 2 > 1 / 1000000 then
        (f32Read yF32 0 15 classicProps 1 "y" - 2) / (6 - 2)
       else 1 / 2) ∧
    (decodePoints cexOps yF32 cexU8 classicProps 15 0 3 (some 3)).elevations 1 = 1 / 2 ∧
    (decodePoints cexOps y7F32 cexU8 classicProps 15 0 3 (some 3)).elevations 0 = 1 / 2 := by
  have hy : offsetOf classicProps "y" = 4 := by decide
  refine ⟨⟨by decide, by decide⟩,
    (c5_elevation_normalization cexOps yF32 cexU8 classicProps 15 0 3 (some 3) 1 2 6
      (by decide) (by decide)).2.2, ?_, ?_⟩
  · norm_num [decodePoints, yStats, yStep, f32Read, hy, yF32, List.range_succ]
  · norm_num [decodePoints, yStats, yStep, f32Read, hy, y7F32, List.range_succ]

/-- C6: for every non-empty decode, the returned bounding box is the exact
axis-aligned extent of the decoded positions: on each axis its min/max is the
minimum/maximum of that coordinate over all points. -/
theorem c6_bounding_box_exact (ops : FloatOps K) (getF32 : Nat → K) (getU8 : Nat → Nat)
    (props : List PropDesc) (stride base n : Nat) (pc : Option Int) (mn mx : V3 K)
    (_hn : n ≠ 0)
    (hbox : (decodePoints ops getF32 getU8 props stride base n pc).boundingBox
      = some (mn, mx)) :
    ((List.range n).map (fun i => f32Read getF32 base stride props i "x")).min? = some mn.1 ∧
    ((List.range n).map (fun i => f32Read getF32 base stride props i "y")).min? = some mn.2.1 ∧
    ((List.range n).map (fun i => f32Read getF32 base stride props i "z")).min? = some mn.2.2 ∧
    ((List.range n).map (fun i => f32Read getF32 base stride props i "x")).max? = some mx.1 ∧
    ((List.range n).map (fun i => f32Read getF32 base stride props i "y")).max? = some mx.2.1 ∧
    ((List.range n).map (fun i => f32Read getF32 base stride props i "z")).max? = some mx.2.2 := by
  unfold decodePoints at hbox
  dsimp only at hbox
  have h := boxOf_minmax _ _ _ hbox
  simpa [List.map_map, Function.comp] using h

/-- C6 (witness): the exact-extent statement at a concrete three-record
dataset with coordinates `x ∈ {0,15,30}`, `y ∈ {4,19,34}`, `z ∈ {8,23,38}`. -/
theorem c6_bounding_box_exact_witness :
    ((3 : Nat) ≠ 0 ∧
     (decodePoints cexOps c6F32 cexU8 classicProps 15 0 3 (some 3)).boundingBox
       = some ((((0 : ℚ), (4 : ℚ), (8 : ℚ))), (((30 : ℚ), (34 : ℚ), (38 : ℚ))))) ∧
    ((List.range 3).map (fun i => f32Read c6F32 0 15 classicProps i "x")).min?
      = some ((0 : ℚ), (4 : ℚ), (8 : ℚ)).1 ∧
    ((List.range 3).map (fun i => f32Read c6F32 0 15 classicProps i "y")).min?
      = some ((0 : ℚ), (4 : ℚ), (8 : ℚ)).2.1 ∧
    ((List.range 3).map (fun i => f32Read c6F32 0 15 classicProps i "z")).min?
      = some ((0 : ℚ), (4 : ℚ), (8 : ℚ)).2.2 ∧
    ((List.range 3).map (fun i => f32Read c6F32 0 15 classicProps i "x")).max?
      = some ((30 : ℚ), (34 : ℚ), (38 : ℚ)).1 ∧
    ((List.range 3).map (fun i => f32Read c6F32 0 15 classicProps i "y")).max?
      = some ((30 : ℚ), (34 : ℚ), (38 : ℚ)).2.1 ∧
    ((List.range 3).map (fun i => f32Read c6F32 0 15 classicProps i "z")).max?
      = some ((30 : ℚ), (34 : ℚ), (38 : ℚ)).2.2 :=
  ⟨⟨by decide, by decide⟩,
   c6_bounding_box_exact cexOps c6F32 cexU8 classicProps 15 0 3 (some 3) _ _
     (by decide) (by decide)⟩

/-- C7: in Splat render mode, every point whose projected 2D covariance
`(Σ00, Σ01, Σ11)` (the `v_cov_a` varying) has determinant
`Σ00·Σ11 − Σ01² ≤ 0` is marked discarded and every fragment of it is
discarded, for every camera/model configuration producing that condition. -/
theorem c7_degenerate_splat_discarded (ops : FloatOps K) (u : VertexUniforms K)
    (vin : VertexIn K) (u_opacity : K) (coord : K × K)
    (hmode : u.u_render_mode = 2)
    (hdet : (vertexMain ops u vin).v_cov_a.1 * (vertexMain ops u vin).v_cov_a.2.2
          - (vertexMain ops u vin).v_cov_a.2.1 * (vertexMain ops u vin).v_cov_a.2.1 ≤ 0) :
    fragmentMain ops u_opacity u.u_render_mode (vertexMain ops u vin) coord = none := by
  have hd : covDet ops u vin ≤ 0 := by
    have h := hdet
    unfold vertexMain at h
    rw [if_pos hmode] at h
    dsimp only at h
    unfold covDet
    exact h
  have hvd : (vertexMain ops u vin).v_discard = (1 : K) := by
    unfold vertexMain
    rw [if_pos hmode]
    dsimp only
    rw [if_pos hd]
  unfold fragmentMain
  rw [hvd, if_pos (show (1 : K) > 1 / 2 from one_half_lt_one)]

/-- C7 (witness): a concrete splat-mode configuration (zero scales give a
zero projected covariance, determinant 0) whose fragments are all
discarded. -/
theorem c7_degenerate_splat_discarded_witness :
    cexUniforms.u_render_mode = 2 ∧
    ((vertexMain cexOps cexUniforms cexVertexIn).v_cov_a.1 *
        (vertexMain cexOps cexUniforms cexVertexIn).v_cov_a.2.2 -
      (vertexMain cexOps cexUniforms cexVertexIn).v_cov_a.2.1 *
        (vertexMain cexOps cexUniforms cexVertexIn).v_cov_a.2.1 ≤ 0) ∧
    fragmentMain cexOps 1 cexUniforms.u_render_mode
      (vertexMain cexOps cexUniforms cexVertexIn) (1 / 2, 1 / 2) = none := by
  have hdet : (vertexMain cexOps cexUniforms cexVertexIn).v_cov_a.1 *
      (vertexMain cexOps cexUniforms cexVertexIn).v_cov_a.2.2 -
      (vertexMain cexOps cexUniforms cexVertexIn).v_cov_a.2.1 *
        (vertexMain cexOps cexUniforms cexVertexIn).v_cov_a.2.1 ≤ 0 := by
    norm_num [vertexMain, projCov, covDet, camPos, mat4MulV4, mat4ToMat3, mat3Mul, mat3T,
      glMat3, glNormalize4, cexOps, cexUniforms, cexVertexIn, idMat4, cropDiscardFlag]
  exact ⟨rfl, hdet,
    c7_degenerate_splat_discarded cexOps cexUniforms cexVertexIn 1 (1 / 2, 1 / 2) rfl hdet⟩

/-- C8: the crop test — when enabled, a point is flagged discarded iff its
object-space position leaves the closed interval `[min, max]` on at least
one axis; comparisons are inclusive, so a point sitting exactly on `min` or
`max` on every axis of a crop box is never discarded; when disabled nothing
is crop-discarded. -/
theorem c8_crop_test (enabled : Bool) (cmin cmax p : V3 K) :
    (cropDiscardFlag enabled cmin cmax p = true ↔
      (enabled = true ∧
        (p.1 < cmin.1 ∨ p.1 > cmax.1 ∨ p.2.1 < cmin.2.1 ∨ p.2.1 > cmax.2.1 ∨
         p.2.2 < cmin.2.2 ∨ p.2.2 > cmax.2.2))) ∧
    (enabled = false → cropDiscardFlag enabled cmin cmax p = false) ∧
    (cmin.1 ≤ cmax.1 → cmin.2.1 ≤ cmax.2.1 → cmin.2.2 ≤ cmax.2.2 →
      (p.1 = cmin.1 ∨ p.1 = cmax.1) → (p.2.1 = cmin.2.1 ∨ p.2.1 = cmax.2.1) →
      (p.2.2 = cmin.2.2 ∨ p.2.2 = cmax.2.2) →
      cropDiscardFlag enabled cmin cmax p = false) := by
  refine ⟨?_, ?_, ?_⟩
  · simp only [cropDiscardFlag, Bool.and_eq_true, Bool.or_eq_true, decide_eq_true_eq]
    tauto
  · intro h
    simp [cropDiscardFlag, h]
  · intro h1 h2 h3 hx hy hz
    have hout : ¬(p.1 < cmin.1 ∨ p.1 > cmax.1 ∨ p.2.1 < cmin.2.1 ∨ p.2.1 > cmax.2.1 ∨
        p.2.2 < cmin.2.2 ∨ p.2.2 > cmax.2.2) := by
      push_neg
      rcases hx with hx | hx <;> rcases hy with hy | hy <;> rcases hz with hz | hz <;>
        exact ⟨by linarith, by linarith, by linarith, by linarith, by linarith, by linarith⟩
    simp only [cropDiscardFlag, Bool.and_eq_false_iff]
    right
    push_neg at hout
    simp only [Bool.or_eq_false_iff, decide_eq_false_iff_not, not_lt]
    tauto

/-- C8 (witness): a boundary point (at `min` on x and z, at `max` on y) of a
valid crop box is not discarded even with cropping enabled. -/
theorem c8_crop_test_witness :
    cropDiscardFlag true ((0 : ℚ), (0 : ℚ), (0 : ℚ)) (1, 1, 1) (0, 1, 0) = false :=
  (c8_crop_test true ((0 : ℚ), (0 : ℚ), (0 : ℚ)) (1, 1, 1) (0, 1, 0)).2.2
    (by norm_num) (by norm_num) (by norm_num)
    (Or.inl rfl) (Or.inr rfl) (Or.inl rfl)

/-- C9: when a header carries both complete color schemes and parsing
succeeds, the decoder uses the SH scheme: `validateScheme` returns
`useSHColor = true`, every color channel is the sigmoid of the corresponding
`f_dc` float32, and the classic uint8 bytes have no effect (the decoded
dataset is identical for any two uint8 readers). -/
theorem c9_sh_scheme_preference (ops : FloatOps K) (getF32 : Nat → K) (getU8 getU8' : Nat → Nat)
    (props : List PropDesc) (stride base n : Nat) (pc : Option Int) (i c : Nat)
    (hpos : hasPositionFlag props = true) (_hclassic : hasClassicColorFlag props = true)
    (hsh : hasSHColorFlag props = true) (hi : i < n) (hc : c < 3) :
    validateScheme props = Except.ok true ∧
    (decodePoints ops getF32 getU8 props stride base n pc).colors (3 * i + c) =
      sigmoid ops (f32Read getF32 base stride props i (fdcName c)) ∧
    decodePoints ops getF32 getU8 props stride base n pc =
      decodePoints ops getF32 getU8' props stride base n pc := by
  refine ⟨?_, ?_, ?_⟩
  · unfold validateScheme
    simp [hpos, hsh]
  · have hidx : 3 * i + c < 3 * n := by omega
    have hdiv : (3 * i + c) / 3 = i := by omega
    have hmod : (3 * i + c) % 3 = c := by omega
    unfold decodePoints
    dsimp only
    rw [if_pos hidx, if_pos hsh, hdiv, hmod]
  · unfold decodePoints
    dsimp only
    congr 1
    funext idx
    by_cases h : idx < 3 * n
    · rw [if_pos h, if_pos h, if_pos hsh, if_pos hsh]
    · rw [if_neg h, if_neg h]

/-- C9 (witness): the statement at the concrete both-scheme header with two
different uint8 readers. -/
theorem c9_sh_scheme_preference_witness :
    (hasPositionFlag bothSchemeProps = true ∧ hasClassicColorFlag bothSchemeProps = true ∧
     hasSHColorFlag bothSchemeProps = true ∧ 0 < 1 ∧ 0 < 3) ∧
    validateScheme bothSchemeProps = Except.ok true ∧
    (decodePoints cexOps cexF32 cexU8 bothSchemeProps 27 0 1 (some 1)).colors (3 * 0 + 0) =
      sigmoid cexOps (f32Read cexF32 0 27 bothSchemeProps 0 (fdcName 0)) ∧
    decodePoints cexOps cexF32 cexU8 bothSchemeProps 27 0 1 (some 1) =
      decodePoints cexOps cexF32 cexU8' bothSchemeProps 27 0 1 (some 1) := by
  have h := c9_sh_scheme_preference cexOps cexF32 cexU8 cexU8' bothSchemeProps 27 0 1
    (some 1) 0 0 (by decide) (by decide) (by decide) (by decide) (by decide)
  exact ⟨⟨by decide, by decide, by decide, by decide, by decide⟩, h.1, h.2.1, h.2.2⟩

end SplatViewer
